import Mathlib

/-!
Verification of the AI news digest pipeline (slack-ai-news-feed).

Shallow embedding of the repository's core components:
* `src/src/ai_content_filter.py` — `AIContentFilter.is_ai_related` /
  `filter_items` (multi-stage relevance classifier over item dictionaries);
* `src/src/circuit_breaker.py` — `CircuitBreaker` (state machine over an
  explicit integer clock);
* `src/src/rate_limiter.py` — `RateLimiter.wait_if_needed` (rational clock,
  sleeping modelled as advancing the clock);
* `src/src/firestore_client.py` — error handling of `is_url_processed` /
  `mark_url_processed` (the Firestore SDK result is an explicit `Except`);
* `src/src/slack_digest_v2.py` — `SlackDigest` accumulator;
* `src/src/event_driven_main.py` / `src/src/main_digest_fixed.py` —
  per-item orchestration steps and item-selection order.

Items are Python `Dict[str, str]` values; we model them as association
lists of string pairs, with `dict.get(k, default)` as `lookup` + `getD`.
-/

/-- A feed item: a Python `Dict[str, str]` (keys may be missing). -/
def Item : Type := List (String × String)

instance : DecidableEq Item := by unfold Item; infer_instance

/-- `item.get(k, dflt)` for a string-valued dictionary. -/
def pyGet (d : Item) (k dflt : String) : String := (d.lookup k).getD dflt

/-- Python `str.lower()` (ASCII; all keyword tables are ASCII). -/
def lowerStr (s : String) : String := ⟨s.data.map Char.toLower⟩

/-- Python slice `s[:n]` (by code points, as in Python). -/
def takeChars (s : String) (n : Nat) : String := ⟨s.data.take n⟩

/-- `needle` is a leading segment of `hay`. -/
def leadsChars : List Char → List Char → Bool
  | [], _ => true
  | _ :: _, [] => false
  | a :: as, b :: bs => a == b && leadsChars as bs

/-- Python substring test `needle in hay` (contiguous occurrence). -/
def subChars (needle : List Char) : List Char → Bool
  | [] => needle.isEmpty
  | c :: t => leadsChars needle (c :: t) || subChars needle t

/-- `needle in hay` on strings. -/
def strHas (hay needle : String) : Bool := subChars needle.data hay.data

/-- `AIContentFilter.PRIMARY_AI_KEYWORDS` (ai_content_filter.py lines 12-27). -/
def PRIMARY_AI_KEYWORDS : List String :=
  ["artificial intelligence", " ai ", "machine learning", " ml ", "deep learning",
   "neural network", "llm", "large language model", "generative ai", "genai",
   "openai", "chatgpt", "gpt-", "claude", "anthropic", "gemini ai", "google ai",
   "midjourney", "stable diffusion", "dall-e", "github copilot", "perplexity ai",
   "hugging face", "meta llama", "mistral ai", "cohere", "ai21",
   "transformer model", "prompt engineering", "fine-tuning", "ai safety",
   "ai ethics", "ai regulation", "agi", "artificial general intelligence",
   "computer vision", "natural language processing", "ai research",
   "foundation model", "multimodal ai", "ai alignment", "responsible ai"]

/-- `AIContentFilter.SECONDARY_AI_KEYWORDS` (lines 30-36). -/
def SECONDARY_AI_KEYWORDS : List String :=
  ["ai tool", "ai platform", "ai startup", "ai company", "ai service",
   "ai-powered", "ai-based", "ai-driven", "ai-enabled", "ai application",
   "ai generated", "ai system", "predictive ai", "conversational ai",
   "ai assistant", "chatbot", "ai model", "ai training", "ai deployment",
   "ai breakthrough", "ai innovation", "ai development", "ai technology"]

/-- `AIContentFilter.CONTEXT_KEYWORDS` (lines 39-43). -/
def CONTEXT_KEYWORDS : List String :=
  ["launches ai", "unveils ai", "introduces ai", "releases ai", "develops ai",
   "ai announcement", "ai update", "ai feature", "ai capability", "ai integration",
   "ai partnership", "ai acquisition", "ai investment", "ai funding", "ai valuation"]

/-- `AIContentFilter.EXCLUDE_PATTERNS` (lines 46-73). -/
def EXCLUDE_PATTERNS : List (String × String) :=
  [("nintendo", "showcase"), ("gaming", "console"), ("video game", "release"),
   ("streaming", "service"), ("netflix", "show"), ("disney", "content"),
   ("laptop", "review"), ("smartphone", "review"), ("headphone", "review"),
   ("speaker", "review"), ("monitor", "review"), ("keyboard", "review"),
   ("walking pad", "review"), ("treadmill", "review"), ("fitness", "equipment"),
   ("broadband", "provider"), ("internet", "outage"), ("wifi", "router"),
   ("5g", "network"), ("satellite", "internet"), ("bluetooth", "network"),
   ("instagram", "feature"), ("twitter", "update"), ("facebook", "change"),
   ("whatsapp", "update"), ("tiktok", "trend"), ("snapchat", "filter"),
   ("privacy", "lawsuit"), ("data", "breach"), ("antitrust", "case"),
   ("patent", "dispute"), ("copyright", "claim"), ("trademark", "filing"),
   ("illegally", "collected"), ("jury", "rules"), ("menstrual", "data"),
   ("cryptocurrency", "price"), ("bitcoin", "mining"), ("blockchain", "network"),
   ("nft", "collection"), ("metaverse", "platform"), ("vr", "headset"),
   ("website", "error"), ("coding", "bug"), ("server", "outage")]

/-- `AIContentFilter.REQUIRES_STRONG_CONTEXT` (lines 76-80). -/
def REQUIRES_STRONG_CONTEXT : List String :=
  ["meta", "google", "microsoft", "amazon", "apple", "nvidia",
   "data collection", "privacy", "regulation", "ethics", "safety",
   "research", "development", "innovation", "technology"]

/-- Local set `ai_specific_feeds` in `is_ai_related` (lines 98-105). -/
def aiSpecificFeedNames : List String :=
  ["Science Daily AI", "Daily AI", "MarkTechPost",
   "AI News - Artificial Intelligence News",
   "BAIR Blog - Berkeley AI Research", "AI Business",
   "The AI Daily Brief", "AI News in 5 Minutes or Less",
   "AI Lawyer Talking Tech", "The Neuron",
   "Analytics India Magazine"]

/-- Local set `legal_privacy_keywords` in `is_ai_related` (lines 123-127). -/
def legal_privacy_keywords : List String :=
  ["lawsuit", "jury", "illegally", "privacy violation",
   "data breach", "court rules", "legal battle",
   "privacy concerns"]

/-- Local set `ai_companies` in `is_ai_related` (lines 178-182). -/
def ai_companies : List String :=
  ["openai", "anthropic", "deepmind", "stability ai",
   "midjourney", "character.ai", "inflection ai",
   "adept ai", "cohere", "ai21 labs"]

/-- `item.get('feed_name') in ai_specific_feeds` (line 107): a missing key
yields `None`, which is in no set of strings. -/
def allowlistedSource (item : Item) : Bool :=
  match item.lookup "feed_name" with
  | some n => aiSpecificFeedNames.contains n
  | none => false

/-- `title = item.get('title', '').lower()` (line 93). -/
def itemTitle (item : Item) : String := lowerStr (pyGet item "title" "")

/-- `description = item.get('description', '').lower()` (line 94). -/
def itemDescription (item : Item) : String := lowerStr (pyGet item "description" "")

/-- `full_text = f"{title} {description}"` (line 95). -/
def itemFullText (item : Item) : String :=
  itemTitle item ++ " " ++ itemDescription item

/-- `re.search(r'\(ai[^)]*\)', title)` (line 118): somewhere in the text an
occurrence of "(ai" is eventually followed by a closing parenthesis (the
`[^)]*` run absorbs everything up to the first one). -/
def hasParenAi : List Char → Bool
  | [] => false
  | c :: t =>
    (c == '(' && (match t with
                  | 'a' :: 'i' :: r => r.contains ')'
                  | _ => false)) || hasParenAi t

/-- `AIContentFilter.is_ai_related` (ai_content_filter.py lines 82-192),
stage by stage in source order. -/
def is_ai_related (item : Item) : Bool :=
  let title := itemTitle item
  let description := itemDescription item
  let full_text := itemFullText item
  -- Priority check: some feeds are always AI-related (lines 97-109)
  if allowlistedSource item then true
  -- Stage 1: exclusion patterns (lines 111-115)
  else if EXCLUDE_PATTERNS.any (fun p => strHas full_text p.1 && strHas full_text p.2) then false
  -- "(ai ...)" only as a minor feature (lines 117-120)
  else if hasParenAi title.data
          && !(PRIMARY_AI_KEYWORDS.any (fun kw => strHas title kw)) then false
  -- legal/privacy guard (lines 122-135); `title.lower()` lowers again
  else if legal_privacy_keywords.any (fun kw => strHas (lowerStr title) kw)
          && !(PRIMARY_AI_KEYWORDS.any (fun kw => strHas title kw)) then false
  else
    -- Stage 2: primary keywords in title or first 200 chars of description
    let title_and_early_desc := title ++ " " ++ takeChars description 200
    if PRIMARY_AI_KEYWORDS.any (fun kw => strHas title_and_early_desc kw) then true
    -- Stage 3: strong context phrases over the full text
    else if CONTEXT_KEYWORDS.any (fun kw => strHas full_text kw) then true
    else
      -- Stage 4: count of secondary keyword matches
      let secondary_count := SECONDARY_AI_KEYWORDS.countP (fun kw => strHas full_text kw)
      if 2 ≤ secondary_count then true
      -- Stage 5: context-requiring topic together with a secondary keyword
      else if REQUIRES_STRONG_CONTEXT.any (fun kw => strHas full_text kw)
              && 1 ≤ secondary_count then true
      -- Stage 6: AI company named in the title
      else if ai_companies.any (fun c => strHas title c) then true
      else false

/-- `AIContentFilter.filter_items` (lines 194-210): the list comprehension
`[item for item in items if cls.is_ai_related(item)]`. -/
def filter_items (items : List Item) : List Item := items.filter is_ai_related

/-- Bridge from propositional list membership to the boolean `contains`. -/
theorem containsOfMem {l : List String} {a : String} (h : a ∈ l) :
    l.contains a = true :=
  List.elem_eq_true_of_mem h

/-- C1: an item whose `feed_name` is in the fixed allowlist of AI-specific
feed names is classified as AI-related whatever its title and description
contain (the allowlist check fires before every text-based stage). -/
theorem allowlisted_feed_always_relevant (item : Item) (name : String)
    (h1 : item.lookup "feed_name" = some name)
    (h2 : name ∈ aiSpecificFeedNames) :
    is_ai_related item = true := by
  have hA : allowlistedSource item = true := by
    unfold allowlistedSource
    rw [h1]
    exact containsOfMem h2
  unfold is_ai_related
  simp [hA]

/-- Witness for C1: an allowlisted feed item whose text matches an exclusion
pair ("nintendo"/"showcase", "laptop"/"review") and has no AI keyword. -/
theorem allowlisted_feed_always_relevant_witness :
    is_ai_related [("feed_name", "Daily AI"),
                   ("title", "nintendo showcase laptop review")] = true :=
  allowlisted_feed_always_relevant _ "Daily AI" (by decide) (by decide)

/-- C2: a non-allowlisted item whose combined lowercased title+description
contains both terms of some exclusion pair is classified as not AI-related,
whatever else (primary keywords, context phrases, secondary keywords) the
text contains. -/
theorem exclusion_pair_forces_false (item : Item) (p : String × String)
    (h1 : allowlistedSource item = false)
    (h2 : p ∈ EXCLUDE_PATTERNS)
    (h3 : strHas (itemFullText item) p.1 = true)
    (h4 : strHas (itemFullText item) p.2 = true) :
    is_ai_related item = false := by
  have hE : EXCLUDE_PATTERNS.any
      (fun q => strHas (itemFullText item) q.1 && strHas (itemFullText item) q.2) = true :=
    List.any_eq_true.2 ⟨p, h2, by rw [h3, h4]; rfl⟩
  unfold is_ai_related
  simp [h1, hE]

/-- Witness for C2: the title "OpenAI laptop review" carries the primary
keyword "openai" yet matches the exclusion pair ("laptop", "review"). -/
theorem exclusion_pair_forces_false_witness :
    is_ai_related [("title", "OpenAI laptop review"),
                   ("feed_name", "TechCrunch")] = false :=
  exclusion_pair_forces_false _ ("laptop", "review")
    (by decide) (by decide) (by decide) (by decide)

/-- C3: `filter_items` is idempotent, returns only items of its input, and
keeps the surviving items in their original relative order (sublist). -/
theorem filter_items_idempotent_ordered (L : List Item) :
    filter_items (filter_items L) = filter_items L
    ∧ (∀ x ∈ filter_items L, x ∈ L)
    ∧ (filter_items L).Sublist L := by
  refine ⟨?_, fun x hx => (List.filter_sublist L).subset hx, List.filter_sublist L⟩
  simp [filter_items, List.filter_filter]

/-- An item dictionary carrying only a title: the `description` and
`feed_name` keys are missing. -/
def degenerateKeptItem : Item := [("title", "OpenAI releases GPT-5")]

/-- Counterexample to C4 as stated: an item missing the `description` and
`feed_name` keys is not dropped by `filter_items` — its title alone matches
a primary keyword, so the degenerate item survives. -/
theorem degenerate_item_not_dropped :
    degenerateKeptItem.lookup "description" = none
    ∧ degenerateKeptItem.lookup "feed_name" = none
    ∧ filter_items [degenerateKeptItem] = [degenerateKeptItem] := by
  decide

/-- C4 (amended): `filter_items` is a total function on item dictionaries —
for every input list (items may miss any keys) it returns a sublist of the
input; a missing field defaults to the empty value and contributes no match
(an item with no keys at all is dropped), but a degenerate item can still
be kept when one of its remaining fields matches. -/
theorem filter_items_total_missing_fields_default (L : List Item) :
    (filter_items L).Sublist L
    ∧ is_ai_related ([] : Item) = false
    ∧ ∃ d : Item, d.lookup "description" = none ∧ d.lookup "feed_name" = none
        ∧ is_ai_related d = true :=
  ⟨List.filter_sublist L, by decide, ⟨degenerateKeptItem, by decide⟩⟩

/-- `CircuitState` (circuit_breaker.py lines 14-18); `OPEN` is rendered as
`opened` because `open` is a reserved word. -/
inductive CircuitState
  | closed
  | opened
  | halfOpen
deriving DecidableEq, Repr

/-- `CircuitBreaker` instance fields (lines 31-51).  Wall-clock instants
(`datetime.now()`) are integer seconds. -/
structure CircuitBreaker where
  failureThreshold : Nat
  recoveryTimeout : Int
  failureCount : Nat
  lastFailureTime : Option Int
  state : CircuitState
deriving DecidableEq, Repr

/-- The breaker produced by `__init__` (lines 45-51). -/
def initCircuitBreaker (thr : Nat) (rt : Int) : CircuitBreaker :=
  ⟨thr, rt, 0, none, .closed⟩

/-- Outcome of the wrapped function, had it been invoked.  `expected`
failures are exceptions of the configured `expected_exception` type. -/
inductive CallOutcome
  | success
  | expectedFailure
  | unexpectedFailure
deriving DecidableEq, Repr

/-- What `CircuitBreaker.call` does for the caller: return the wrapped
result, raise the "circuit is OPEN" exception, or re-raise the wrapped
function's exception. -/
inductive CallResult
  | returned
  | raisedOpenError
  | raisedExpected
  | raisedUnexpected
deriving DecidableEq, Repr

/-- `CircuitBreaker._should_attempt_reset` (lines 86-93). -/
def shouldAttemptReset (cb : CircuitBreaker) (now : Int) : Bool :=
  match cb.lastFailureTime with
  | none => false
  | some t => decide (t + cb.recoveryTimeout ≤ now)

/-- `CircuitBreaker._on_success` (lines 106-112). -/
def onSuccess (cb : CircuitBreaker) : CircuitBreaker :=
  { cb with failureCount := 0, state := .closed }

/-- `CircuitBreaker._on_failure` (lines 114-126). -/
def onFailure (cb : CircuitBreaker) (now : Int) : CircuitBreaker :=
  let cb2 := { cb with failureCount := cb.failureCount + 1, lastFailureTime := some now }
  if cb2.failureThreshold ≤ cb2.failureCount then { cb2 with state := .opened }
  else if cb2.state = .halfOpen then { cb2 with state := .opened }
  else cb2

/-- The OPEN-state gate at the top of `CircuitBreaker.call` (lines 68-76):
`none` means the call is rejected before the wrapped function runs;
`some cb'` is the breaker state under which the wrapped function runs. -/
def callGate (cb : CircuitBreaker) (now : Int) : Option CircuitBreaker :=
  if cb.state = .opened then
    if shouldAttemptReset cb now then some { cb with state := .halfOpen }
    else none
  else some cb

/-- `CircuitBreaker.call` (lines 53-84).  Returns what the caller sees,
whether the wrapped function was invoked, and the breaker afterwards. -/
def cbCall (cb : CircuitBreaker) (now : Int) (outcome : CallOutcome) :
    CallResult × Bool × CircuitBreaker :=
  match callGate cb now with
  | none => (.raisedOpenError, false, cb)
  | some cb2 =>
    match outcome with
    | .success => (.returned, true, onSuccess cb2)
    | .expectedFailure => (.raisedExpected, true, onFailure cb2 now)
    | .unexpectedFailure => (.raisedUnexpected, true, cb2)

/-- A run of consecutive calls whose wrapped function raises the expected
exception, at the given instants. -/
def foldFails (cb : CircuitBreaker) (ts : List Int) : CircuitBreaker :=
  ts.foldl (fun c t => (cbCall c t .expectedFailure).2.2) cb

/-- A run of `failure_threshold` consecutive expected failures starting from
a CLOSED breaker ends OPEN, with the failure count at the threshold and the
last-failure instant recorded. -/
theorem foldFails_spec (ts : List Int) : ∀ (cb : CircuitBreaker) (hne : ts ≠ []),
    cb.state = .closed →
    cb.failureCount + ts.length = cb.failureThreshold →
    foldFails cb ts = { cb with failureCount := cb.failureThreshold,
                                lastFailureTime := some (ts.getLast hne),
                                state := .opened } := by
  induction ts with
  | nil => intro cb hne _ _; exact absurd rfl hne
  | cons t ts' ih =>
    intro cb hne h1 h2
    obtain ⟨thr, rt, fc, lft, st⟩ := cb
    simp only at h1 h2 ⊢
    subst h1
    cases ts' with
    | nil =>
      have hthr : thr ≤ fc + 1 := by
        simp only [List.length_cons, List.length_nil] at h2
        omega
      have hthr' : fc + 1 = thr := by
        simp only [List.length_cons, List.length_nil] at h2
        omega
      simp [foldFails, cbCall, callGate, onFailure, hthr, hthr']
    | cons u ts'' =>
      have hlt : ¬ thr ≤ fc + 1 := by
        simp only [List.length_cons] at h2
        omega
      have hstep : (cbCall ⟨thr, rt, fc, lft, .closed⟩ t .expectedFailure).2.2
          = (⟨thr, rt, fc + 1, some t, .closed⟩ : CircuitBreaker) := by
        simp [cbCall, callGate, onFailure, hlt]
      have hrec := ih (⟨thr, rt, fc + 1, some t, .closed⟩ : CircuitBreaker)
        (List.cons_ne_nil u ts'') rfl
        (by simp only [List.length_cons] at h2 ⊢; omega)
      calc foldFails ⟨thr, rt, fc, lft, .closed⟩ (t :: u :: ts'')
          = foldFails ⟨thr, rt, fc + 1, some t, .closed⟩ (u :: ts'') := by
            simp [foldFails, hstep]
        _ = _ := by
            rw [hrec]
            simp [List.getLast_cons (List.cons_ne_nil u ts'')]

/-- C5: from a fresh CLOSED breaker, `failure_threshold` consecutive
expected failures open the circuit; a call before the recovery timeout is
rejected without invoking the wrapped function and leaves the breaker
unchanged; a call once the timeout has elapsed passes the gate in the
HALF_OPEN state and, on success, closes the breaker and resets the
failure count to 0. -/
theorem circuit_breaker_recovery (thr : Nat) (rt : Int) (ts : List Int) (t1 t2 : Int)
    (hne : ts ≠ []) (hlen : ts.length = thr)
    (h1 : t1 < ts.getLast hne + rt)
    (h2 : ts.getLast hne + rt ≤ t2) :
    (foldFails (initCircuitBreaker thr rt) ts).state = .opened
    ∧ (foldFails (initCircuitBreaker thr rt) ts).failureCount = thr
    ∧ (∀ o, cbCall (foldFails (initCircuitBreaker thr rt) ts) t1 o
          = (.raisedOpenError, false, foldFails (initCircuitBreaker thr rt) ts))
    ∧ callGate (foldFails (initCircuitBreaker thr rt) ts) t2
        = some { foldFails (initCircuitBreaker thr rt) ts with state := .halfOpen }
    ∧ cbCall (foldFails (initCircuitBreaker thr rt) ts) t2 .success
        = (.returned, true,
           { foldFails (initCircuitBreaker thr rt) ts with
             state := .closed, failureCount := 0 }) := by
  have hfold := foldFails_spec ts (initCircuitBreaker thr rt) hne rfl
    (by simp [initCircuitBreaker, hlen])
  rw [hfold]
  refine ⟨rfl, rfl, ?_, ?_, ?_⟩
  · intro o
    simp [cbCall, callGate, shouldAttemptReset, initCircuitBreaker, not_le.2 h1]
  · simp [callGate, shouldAttemptReset, initCircuitBreaker, h2]
  · simp [cbCall, callGate, shouldAttemptReset, onSuccess, initCircuitBreaker, h2]

/-- Witness for C5 at threshold 2, timeout 60, failures at instants 0 and
10, a rejected call at 30 and a successful trial call at 70. -/
theorem circuit_breaker_recovery_witness :
    (foldFails (initCircuitBreaker 2 60) [0, 10]).state = .opened
    ∧ cbCall (foldFails (initCircuitBreaker 2 60) [0, 10]) 30 .success
        = (.raisedOpenError, false, foldFails (initCircuitBreaker 2 60) [0, 10])
    ∧ cbCall (foldFails (initCircuitBreaker 2 60) [0, 10]) 70 .success
        = (.returned, true, { foldFails (initCircuitBreaker 2 60) [0, 10] with
                              state := .closed, failureCount := 0 }) := by
  obtain ⟨a, _, c, _, e⟩ := circuit_breaker_recovery 2 60 [0, 10] 30 70
    (by decide) (by decide) (by decide) (by decide)
  exact ⟨a, c .success, e⟩

/-- C6: when the breaker is not OPEN and the wrapped function raises an
exception that is not of the expected type, the exception propagates
(after the function was invoked) and every breaker field is unchanged. -/
theorem unexpected_exception_passthrough (cb : CircuitBreaker) (now : Int)
    (h : cb.state ≠ .opened) :
    cbCall cb now .unexpectedFailure = (.raisedUnexpected, true, cb) := by
  unfold cbCall callGate
  simp [h]

/-- Witness for C6: a fresh CLOSED breaker passes an unexpected error
through untouched. -/
theorem unexpected_exception_passthrough_witness :
    cbCall (initCircuitBreaker 5 60) 0 .unexpectedFailure
      = (.raisedUnexpected, true, initCircuitBreaker 5 60) :=
  unexpected_exception_passthrough _ 0 (by decide)

/-- `RateLimiter` (rate_limiter.py lines 12-28), restricted to one bucket
key (per-key state is independent: `wait_if_needed(key)` reads and writes
only that key's entries).  Instants are rational seconds; sleeping is
modelled as advancing the clock by the slept amount.
`lastCall` starts at `0.0` (`defaultdict(float)`); `resetTime` is `none`
until the first access creates it (`defaultdict(lambda: now + 1 minute)`). -/
structure RateLimiter where
  callsPerMinute : Nat
  interval : ℚ
  lastCall : ℚ
  callCount : Nat
  resetTime : Option ℚ
deriving DecidableEq, Repr

/-- The limiter produced by `__init__`: `interval = 60.0 / calls_per_minute`. -/
def initRateLimiter (n : Nat) : RateLimiter := ⟨n, 60 / (n : ℚ), 0, 0, none⟩

/-- `self.reset_times[key]` at line 41: lazily created as `now + 1 minute`. -/
def rlResetT0 (rl : RateLimiter) (now : ℚ) : ℚ := rl.resetTime.getD (now + 60)

/-- `call_counts[key]` after the minute-passed reset (lines 41-43). -/
def rlCount0 (rl : RateLimiter) (now : ℚ) : Nat :=
  if rlResetT0 rl now ≤ now then 0 else rl.callCount

/-- `reset_times[key]` after the minute-passed reset (lines 41-43). -/
def rlResetT1 (rl : RateLimiter) (now : ℚ) : ℚ :=
  if rlResetT0 rl now ≤ now then now + 60 else rlResetT0 rl now

/-- The guard of lines 46-48: the cap is hit and the sleep is positive. -/
def rlCapHit (rl : RateLimiter) (now : ℚ) : Bool :=
  decide (rl.callsPerMinute ≤ rlCount0 rl now) && decide (0 < rlResetT1 rl now - now)

/-- `time.sleep(sleep_time)` of line 52 as a clock advance. -/
def rlCapSleep (rl : RateLimiter) (now : ℚ) : ℚ :=
  if rlCapHit rl now then rlResetT1 rl now - now else 0

/-- `call_counts[key]` after the cap branch (line 54). -/
def rlCount1 (rl : RateLimiter) (now : ℚ) : Nat :=
  if rlCapHit rl now then 0 else rlCount0 rl now

/-- `reset_times[key]` after the cap branch (line 55): the clock advanced
by the cap sleep before `datetime.now() + 1 minute` is taken. -/
def rlResetT2 (rl : RateLimiter) (now : ℚ) : ℚ :=
  if rlCapHit rl now then now + rlCapSleep rl now + 60 else rlResetT1 rl now

/-- The minimum-interval sleep of lines 57-62; `time_since_last` uses the
`current_time` snapshot taken at entry (line 37), not the post-sleep clock. -/
def rlIntervalSleep (rl : RateLimiter) (now : ℚ) : ℚ :=
  if now - rl.lastCall < rl.interval then rl.interval - (now - rl.lastCall) else 0

/-- The clock when `wait_if_needed` returns; this is also the recorded
`last_call_times[key] = time.time()` of line 65. -/
def rlDepart (rl : RateLimiter) (now : ℚ) : ℚ :=
  now + rlCapSleep rl now + rlIntervalSleep rl now

/-- `RateLimiter.wait_if_needed` (lines 30-66): the limiter afterwards, the
departure instant, and — when the cap branch slept — the window reset
instant it slept until. -/
def wait_if_needed (rl : RateLimiter) (now : ℚ) :
    RateLimiter × ℚ × Option ℚ :=
  ({ rl with lastCall := rlDepart rl now,
             callCount := rlCount1 rl now + 1,
             resetTime := some (rlResetT2 rl now) },
   rlDepart rl now,
   if rlCapHit rl now then some (rlResetT1 rl now) else none)

/-- A sequence of calls on one key: each entry of `ds` is the delay between
the previous call's return and the next call's arrival; the result is the
list of recorded call instants. -/
def runCalls (rl : RateLimiter) (now : ℚ) : List ℚ → List ℚ
  | [] => []
  | d :: ds =>
    ((wait_if_needed rl (now + d)).2.1) ::
      runCalls (wait_if_needed rl (now + d)).1 (wait_if_needed rl (now + d)).2.1 ds

/-- `k` back-to-back calls (each issued the instant the previous returns). -/
def bbRun (rl : RateLimiter) (now : ℚ) : Nat → RateLimiter × ℚ
  | 0 => (rl, now)
  | k + 1 =>
    ((wait_if_needed (bbRun rl now k).1 (bbRun rl now k).2).1,
     (wait_if_needed (bbRun rl now k).1 (bbRun rl now k).2).2.1)

/-- The cap-branch sleep never moves the clock backwards. -/
theorem rlCapSleep_nonneg (rl : RateLimiter) (now : ℚ) : 0 ≤ rlCapSleep rl now := by
  unfold rlCapSleep rlCapHit
  by_cases h1 : rl.callsPerMinute ≤ rlCount0 rl now
  · by_cases h2 : (0:ℚ) < rlResetT1 rl now - now
    · simp only [h1, h2, decide_True, Bool.and_self, if_true]
      linarith
    · simp [h1, h2]
  · simp [h1]

/-- One call departs (and records) no earlier than the previous recorded
call instant plus the configured interval, whatever the arrival instant. -/
theorem rlDepart_ge (rl : RateLimiter) (now : ℚ) :
    rl.lastCall + rl.interval ≤ rlDepart rl now := by
  have hc := rlCapSleep_nonneg rl now
  unfold rlDepart rlIntervalSleep
  by_cases h : now - rl.lastCall < rl.interval
  · simp only [if_pos h]; linarith
  · rw [not_lt] at h; simp only [if_neg (not_lt.2 h)]; linarith

/-- Recorded call instants of a run are spaced at least one interval apart. -/
theorem runCalls_chain (ds : List ℚ) : ∀ (rl : RateLimiter) (now : ℚ),
    List.Chain' (fun a b => a + rl.interval ≤ b) (runCalls rl now ds) := by
  induction ds with
  | nil => intro rl now; simp [runCalls]
  | cons d ds ih =>
    intro rl now
    rw [runCalls, List.chain'_cons']
    refine ⟨?_, ih _ _⟩
    intro y hy
    rcases ds with _ | ⟨d', ds'⟩
    · simp [runCalls] at hy
    · rw [runCalls] at hy
      simp only [List.head?_cons, Option.mem_def, Option.some.injEq] at hy
      subst hy
      exact rlDepart_ge (wait_if_needed rl (now + d)).1
        ((wait_if_needed rl (now + d)).2.1 + d')

/-- First call on a fresh limiter, arriving later than one interval after
clock origin: no reset, no cap, no interval sleep; the window is created. -/
theorem wait_init (n : Nat) (t0 : ℚ) (hn : 1 ≤ n) (ht0 : 60 / (n:ℚ) ≤ t0) :
    wait_if_needed (initRateLimiter n) t0
      = (⟨n, 60 / (n:ℚ), t0, 1, some (t0 + 60)⟩, t0, none) := by
  have h1 : ¬ (t0 + 60 ≤ t0) := by linarith
  have h2 : ¬ ((n:Nat) ≤ 0) := by omega
  have h3 : ¬ (t0 - 0 < 60 / (n:ℚ)) := by rw [not_lt]; simpa using ht0
  have h3' : ¬ (t0 < 60 / (n:ℚ)) := not_lt.2 ht0
  unfold wait_if_needed rlDepart rlCapSleep rlIntervalSleep rlCount1 rlResetT2
    rlCapHit rlCount0 rlResetT1 rlResetT0 initRateLimiter
  simp [h1, h2, h3, h3']

/-- One call against an explicit limiter state in which no reset is due,
the cap is not reached, and the minimum interval forces a sleep. -/
theorem wait_explicit (n : Nat) (ivl L R now : ℚ) (c : Nat)
    (h1 : ¬ (R ≤ now)) (h2 : ¬ ((n:Nat) ≤ c)) (h3 : now - L < ivl) :
    wait_if_needed ⟨n, ivl, L, c, some R⟩ now
      = (⟨n, ivl, now + (ivl - (now - L)), c + 1, some R⟩,
         now + (ivl - (now - L)), none) := by
  unfold wait_if_needed rlDepart rlCapSleep rlIntervalSleep rlCount1 rlResetT2
    rlCapHit rlCount0 rlResetT1 rlResetT0
  simp [h1, h2, h3]

/-- Closed form for `k + 1 ≤ n` back-to-back calls on a fresh limiter with
`calls_per_minute = n`, first arrival `t0` at least one interval after the
clock origin: the `(k+1)`-th call records `t0 + k·(60/n)`, the window
created at the first call still ends at `t0 + 60`, and the counter is
`k + 1`. -/
theorem bbRun_closed_form (n : Nat) (t0 : ℚ) (hn : 1 ≤ n) (ht0 : 60 / (n:ℚ) ≤ t0) :
    ∀ k, k < n →
    bbRun (initRateLimiter n) t0 (k + 1)
      = (⟨n, 60 / (n:ℚ), t0 + (k:ℚ) * (60 / (n:ℚ)), k + 1, some (t0 + 60)⟩,
         t0 + (k:ℚ) * (60 / (n:ℚ))) := by
  have hn0 : (0:ℚ) < (n:ℚ) := by exact_mod_cast hn
  have hivl : (0:ℚ) < 60 / (n:ℚ) := div_pos (by norm_num) hn0
  have hcancel : (n:ℚ) * (60 / (n:ℚ)) = 60 := by field_simp
  intro k
  induction k with
  | zero =>
    intro _
    have : bbRun (initRateLimiter n) t0 1
        = ((wait_if_needed (initRateLimiter n) t0).1,
           (wait_if_needed (initRateLimiter n) t0).2.1) := rfl
    rw [this, wait_init n t0 hn ht0]
    norm_num
  | succ k ih =>
    intro hk
    have hk' : k < n := Nat.lt_of_succ_lt hk
    have hkQ : ((k:ℚ)) * (60 / (n:ℚ)) < 60 := by
      have h1 : ((k:ℚ)) < (n:ℚ) := by exact_mod_cast hk'
      have h3 : ((k:ℚ)) * (60 / (n:ℚ)) < (n:ℚ) * (60 / (n:ℚ)) :=
        mul_lt_mul_of_pos_right h1 hivl
      linarith
    have hr1 : ¬ (t0 + 60 ≤ t0 + (k:ℚ) * (60 / (n:ℚ))) := by linarith
    have hr2 : ¬ ((n:Nat) ≤ k + 1) := by omega
    have hr3 : t0 + (k:ℚ) * (60 / (n:ℚ)) - (t0 + (k:ℚ) * (60 / (n:ℚ)))
        < 60 / (n:ℚ) := by linarith
    have hstep : bbRun (initRateLimiter n) t0 (k + 1 + 1)
        = ((wait_if_needed (bbRun (initRateLimiter n) t0 (k + 1)).1
              (bbRun (initRateLimiter n) t0 (k + 1)).2).1,
           (wait_if_needed (bbRun (initRateLimiter n) t0 (k + 1)).1
              (bbRun (initRateLimiter n) t0 (k + 1)).2).2.1) := rfl
    rw [hstep, ih hk', wait_explicit n (60 / (n:ℚ)) (t0 + (k:ℚ) * (60 / (n:ℚ)))
      (t0 + 60) (t0 + (k:ℚ) * (60 / (n:ℚ))) (k + 1) hr1 hr2 hr3]
    have harith : t0 + (k:ℚ) * (60 / (n:ℚ))
        + (60 / (n:ℚ) - (t0 + (k:ℚ) * (60 / (n:ℚ)) - (t0 + (k:ℚ) * (60 / (n:ℚ)))))
        = t0 + ((k:ℚ) + 1) * (60 / (n:ℚ)) := by ring
    rw [harith]
    norm_num

/-- C7: (a) for any sequence of `wait_if_needed` calls on one key, the
recorded call instants of consecutive calls are spaced at least
`60 / calls_per_minute` seconds apart; (b) issuing `calls_per_minute + 1`
back-to-back calls within one window makes the last call arrive inside the
window with the counter full and sleep in the cap branch exactly until the
window reset instant `t0 + 60` before proceeding. -/
theorem rate_limiter_spacing_and_window (n : Nat) (t0 : ℚ) (ds : List ℚ)
    (hn : 1 ≤ n) (ht0 : 60 / (n:ℚ) ≤ t0) :
    List.Chain' (fun a b => a + 60 / (n:ℚ) ≤ b)
      (runCalls (initRateLimiter n) t0 ds)
    ∧ (bbRun (initRateLimiter n) t0 n).2 < t0 + 60
    ∧ (wait_if_needed (bbRun (initRateLimiter n) t0 n).1
         (bbRun (initRateLimiter n) t0 n).2).2.2 = some (t0 + 60)
    ∧ t0 + 60 ≤ (wait_if_needed (bbRun (initRateLimiter n) t0 n).1
         (bbRun (initRateLimiter n) t0 n).2).2.1 := by
  have hn0 : (0:ℚ) < (n:ℚ) := by exact_mod_cast hn
  have hivl : (0:ℚ) < 60 / (n:ℚ) := div_pos (by norm_num) hn0
  obtain ⟨m, rfl⟩ : ∃ m, n = m + 1 := ⟨n - 1, by omega⟩
  have hclosed := bbRun_closed_form (m + 1) t0 hn ht0 m (Nat.lt_succ_self m)
  have hmQ : ((m:ℚ)) * (60 / ((m:ℚ) + 1)) < 60 := by
    have h1 : ((m:ℚ)) < (m:ℚ) + 1 := by linarith
    have h3 : ((m:ℚ)) * (60 / ((m:ℚ) + 1)) < ((m:ℚ) + 1) * (60 / ((m:ℚ) + 1)) := by
      apply mul_lt_mul_of_pos_right h1
      have : ((m:ℚ) + 1) = ((m + 1 : Nat) : ℚ) := by push_cast; ring
      rw [this]
      exact_mod_cast hivl
    have h4 : ((m:ℚ) + 1) * (60 / ((m:ℚ) + 1)) = 60 := by
      have hm1 : ((m:ℚ) + 1) ≠ 0 := by positivity
      field_simp
    linarith
  have hmQ' : ((m:ℚ)) * (60 / ((m + 1 : Nat):ℚ)) < 60 := by
    have : ((m + 1 : Nat):ℚ) = (m:ℚ) + 1 := by push_cast; ring
    rw [this]; exact hmQ
  refine ⟨runCalls_chain ds (initRateLimiter (m + 1)) t0, ?_, ?_, ?_⟩
  · rw [hclosed]
    show t0 + (m:ℚ) * (60 / ((m + 1 : Nat):ℚ)) < t0 + 60
    linarith
  · rw [hclosed]
    have hr1 : ¬ (t0 + 60 ≤ t0 + (m:ℚ) * (60 / ((m + 1 : Nat):ℚ))) := by linarith
    have hch : rlCapHit
        ⟨m + 1, 60 / ((m + 1 : Nat):ℚ), t0 + (m:ℚ) * (60 / ((m + 1 : Nat):ℚ)),
         m + 1, some (t0 + 60)⟩
        (t0 + (m:ℚ) * (60 / ((m + 1 : Nat):ℚ))) = true := by
      unfold rlCapHit rlCount0 rlResetT1 rlResetT0
      simp only [Option.getD_some, if_neg hr1, le_refl, decide_True,
        Bool.true_and, decide_eq_true_eq]
      linarith
    show (if rlCapHit _ _ then some (rlResetT1 _ _) else none) = some (t0 + 60)
    rw [if_pos hch]
    unfold rlResetT1 rlResetT0
    simp only [Option.getD_some, if_neg hr1]
  · rw [hclosed]
    have hr1 : ¬ (t0 + 60 ≤ t0 + (m:ℚ) * (60 / ((m + 1 : Nat):ℚ))) := by linarith
    have hch : rlCapHit
        ⟨m + 1, 60 / ((m + 1 : Nat):ℚ), t0 + (m:ℚ) * (60 / ((m + 1 : Nat):ℚ)),
         m + 1, some (t0 + 60)⟩
        (t0 + (m:ℚ) * (60 / ((m + 1 : Nat):ℚ))) = true := by
      unfold rlCapHit rlCount0 rlResetT1 rlResetT0
      simp only [Option.getD_some, if_neg hr1, le_refl, decide_True,
        Bool.true_and, decide_eq_true_eq]
      linarith
    show t0 + 60 ≤ rlDepart _ _
    have hint := rlCapSleep_nonneg
    unfold rlDepart rlCapSleep rlIntervalSleep
    rw [if_pos hch]
    unfold rlResetT1 rlResetT0
    simp only [Option.getD_some, if_neg hr1]
    have hivl' : (0:ℚ) < 60 / ((m + 1 : Nat):ℚ) := by
      have : ((m + 1 : Nat):ℚ) = (m:ℚ) + 1 := by push_cast; ring
      rw [this]
      have : (0:ℚ) < (m:ℚ) + 1 := by positivity
      exact div_pos (by norm_num) this
    split <;> linarith

/-- Witness for C7 with `calls_per_minute = 2`, first arrival at clock 60,
and three calls: spacing at least 30 s, and the third back-to-back call
sleeps in the cap branch until the window reset at 120. -/
theorem rate_limiter_spacing_and_window_witness :
    List.Chain' (fun a b => a + 60 / ((2:Nat):ℚ) ≤ b)
      (runCalls (initRateLimiter 2) 60 [0, 0, 0])
    ∧ (bbRun (initRateLimiter 2) 60 2).2 < 60 + 60
    ∧ (wait_if_needed (bbRun (initRateLimiter 2) 60 2).1
         (bbRun (initRateLimiter 2) 60 2).2).2.2 = some (60 + 60)
    ∧ 60 + 60 ≤ (wait_if_needed (bbRun (initRateLimiter 2) 60 2).1
         (bbRun (initRateLimiter 2) 60 2).2).2.1 :=
  rate_limiter_spacing_and_window 2 60 [0, 0, 0] (by norm_num) (by norm_num)

/-- Tool-spotlight payload `{'name', 'description', 'link'}` as returned by
`llm_client.extract_tool_from_article` / `generate_tool_spotlight`. -/
structure ToolInfo where
  name : String
  description : String
  link : String
deriving DecidableEq, Repr

/-- The `stats` dictionary of `SlackDigest.__init__`
(slack_digest_v2.py line 22): fixed keys `news_count`, `podcast_count`,
`errors`. -/
structure DigestStats where
  newsCount : Nat
  podcastCount : Nat
  errors : Nat
deriving DecidableEq, Repr

/-- Accumulator state of `SlackDigest` (slack_digest_v2.py lines 15-22).
`news_items` entries are the `{'article': …, 'summary': …}` pairs,
`podcast_items` the `{'episode': …, 'summary': …}` pairs. -/
structure DigestState where
  newsItems : List (Item × List String)
  podcastItems : List (Item × List String)
  aiTip : Option String
  toolSpotlight : Option ToolInfo
  stats : DigestStats
deriving DecidableEq

/-- The state built by `SlackDigest.__init__`. -/
def initDigest : DigestState := ⟨[], [], none, none, ⟨0, 0, 0⟩⟩

/-- The mutating operations of `SlackDigest` (lines 24-54). -/
inductive DigestOp
  | addNewsItem (article : Item) (summary : List String)
  | addPodcastItem (episode : Item) (summary : List String)
  | setAiTip (tip : String)
  | setToolSpotlight (name description link : String)
  | incrementErrors
deriving DecidableEq

/-- `add_news_item` / `add_podcast_item` / `set_ai_tip` /
`set_tool_spotlight` / `increment_errors` (slack_digest_v2.py lines 24-54). -/
def applyOp (d : DigestState) : DigestOp → DigestState
  | .addNewsItem a s =>
    { d with newsItems := d.newsItems ++ [(a, s)],
             stats := { d.stats with newsCount := d.stats.newsCount + 1 } }
  | .addPodcastItem e s =>
    { d with podcastItems := d.podcastItems ++ [(e, s)],
             stats := { d.stats with podcastCount := d.stats.podcastCount + 1 } }
  | .setAiTip t => { d with aiTip := some t }
  | .setToolSpotlight n desc l => { d with toolSpotlight := some ⟨n, desc, l⟩ }
  | .incrementErrors => { d with stats := { d.stats with errors := d.stats.errors + 1 } }

/-- The counters-match-lengths invariant of the digest accumulator. -/
def digestCountsMatch (d : DigestState) : Prop :=
  d.stats.newsCount = d.newsItems.length
  ∧ d.stats.podcastCount = d.podcastItems.length

/-- Every single operation preserves the counters-match-lengths invariant. -/
theorem applyOp_preserves_counts (d : DigestState) (op : DigestOp)
    (h : digestCountsMatch d) : digestCountsMatch (applyOp d op) := by
  obtain ⟨h1, h2⟩ := h
  cases op <;> simp [applyOp, digestCountsMatch, h1, h2]

/-- C10: after any sequence of digest operations starting from the fresh
accumulator, `stats['news_count']` equals the number of accumulated news
items and `stats['podcast_count']` the number of accumulated podcast
items. -/
theorem digest_stats_match_lengths (ops : List DigestOp) :
    (ops.foldl applyOp initDigest).stats.newsCount
      = (ops.foldl applyOp initDigest).newsItems.length
    ∧ (ops.foldl applyOp initDigest).stats.podcastCount
      = (ops.foldl applyOp initDigest).podcastItems.length := by
  have main : ∀ (l : List DigestOp) (d : DigestState), digestCountsMatch d →
      digestCountsMatch (l.foldl applyOp d) := by
    intro l
    induction l with
    | nil => intro d h; exact h
    | cons op l ih =>
      intro d h
      exact ih (applyOp d op) (applyOp_preserves_counts d op h)
  exact main ops initDigest ⟨rfl, rfl⟩

/-- Errors surfaced by the Firestore SDK: the `NotFound` exception caught
at line 39 of firestore_client.py, or any other exception. -/
inductive FsError
  | notFound
  | other (msg : String)
deriving DecidableEq, Repr

/-- `FirestoreClient.is_url_processed` (firestore_client.py lines 31-43)
as a function of the outcome of the underlying document lookup:
`.ok b` is `bool(doc.exists)`; any raised error yields `False`
("default to unprocessed on error"). -/
def is_url_processed (lookupOutcome : Except FsError Bool) : Bool :=
  match lookupOutcome with
  | .ok b => b
  | .error _ => false

/-- `FirestoreClient.mark_url_processed` (lines 45-69) as a function of the
outcome of the underlying document write: returns `True` on success and
`False` (without raising) when the write raised. -/
def mark_url_processed (writeOutcome : Except FsError Unit) : Bool :=
  match writeOutcome with
  | .ok _ => true
  | .error _ => false

/-- Results of the external collaborators consulted while processing one
news article in `main_function_digest` (main_digest_fixed.py lines 81-135):
the dedup lookup, the scraped content (`None` = no content), the summary
(`None` = no summary), the optional tool extraction, and the dedup write. -/
structure NewsOracle where
  lookupOutcome : Except FsError Bool
  content : Option String
  summary : Option (List String)
  toolInfo : Option ToolInfo
  writeOutcome : Except FsError Unit

/-- One iteration of the news loop of `main_function_digest`
(main_digest_fixed.py lines 81-135), given the collaborator outcomes:
skip if already processed, skip if no content or no summary; otherwise add
the item to the digest, optionally set the tool spotlight, then attempt to
mark the URL processed (the boolean result of the mark is discarded by the
caller).  Returns the digest and the tool-spotlight-found flag. -/
def processNewsArticle (digest : DigestState) (toolFound : Bool)
    (article : Item) (o : NewsOracle) : DigestState × Bool :=
  if is_url_processed o.lookupOutcome then (digest, toolFound)
  else
    match o.content with
    | none => (digest, toolFound)
    | some _ =>
      match o.summary with
      | none => (digest, toolFound)
      | some summary =>
        let d1 := applyOp digest (.addNewsItem article summary)
        let dt :=
          if toolFound then (d1, toolFound)
          else
            match o.toolInfo with
            | some ti =>
              (applyOp d1 (.setToolSpotlight ti.name ti.description
                (if ti.link = "See article" then pyGet article "url" "" else ti.link)),
               true)
            | none => (d1, toolFound)
        let _ := mark_url_processed o.writeOutcome
        (dt.1, dt.2)

/-- C9: a store error during the dedup lookup makes `is_url_processed`
answer `false` (the URL is treated as not yet processed); a store error
during the mark makes `mark_url_processed` answer `false` without raising;
and in the orchestrator's news step, when the summary succeeded, the item
is appended to the digest even though the lookup errored and the mark
errored — the digest addition precedes the mark attempt. -/
theorem store_errors_fail_open (e1 e2 : FsError) (digest : DigestState)
    (toolFound : Bool) (article : Item) (content : String)
    (summary : List String) (ti : Option ToolInfo) :
    is_url_processed (.error e1) = false
    ∧ mark_url_processed (.error e2) = false
    ∧ (processNewsArticle digest toolFound article
        ⟨.error e1, some content, some summary, ti, .error e2⟩).1.newsItems
      = digest.newsItems ++ [(article, summary)] := by
  refine ⟨rfl, rfl, ?_⟩
  unfold processNewsArticle
  simp only [is_url_processed, Bool.false_eq_true, if_false]
  cases toolFound <;> cases ti <;> simp [applyOp]

/-- The sort key of `EventDrivenSummarizer.process_all_content`
(event_driven_main.py lines 97-99 and 127-129):
`x.get('published_parsed', time.gmtime(0))`.  Items built by
`RSSParser.extract_feed_items` (rss_parser.py lines 68-76) carry the keys
`title`, `url`, `description`, `published`, `feed_name`, `feed_type` —
never `published_parsed` — so for pipeline items the key is always the
shared `time.gmtime(0)` default (`none` here). -/
def publishedParsedKey (d : Item) : Option String := d.lookup "published_parsed"

/-- Strict "greater" comparison between sort keys: two absent keys are the
equal default `time.gmtime(0)`, hence never strictly ordered. -/
def ppGt (a b : Item) : Bool :=
  match publishedParsedKey a, publishedParsedKey b with
  | some x, some y => decide (y < x)
  | _, _ => false

/-- Stable insertion step for a descending sort: the new element is placed
before the first element not strictly greater than it, so elements with
equal keys keep their original relative order — Python's `sorted` with
`reverse=True` is stable in exactly this sense. -/
def insertDescBy (gt : α → α → Bool) (x : α) : List α → List α
  | [] => [x]
  | y :: ys => if gt y x then y :: insertDescBy gt x ys else x :: y :: ys

/-- Stable descending sort (`sorted(…, key=…, reverse=True)`). -/
def stableSortDesc (gt : α → α → Bool) : List α → List α
  | [] => []
  | x :: xs => insertDescBy gt x (stableSortDesc gt xs)

/-- `recent_news = sorted(all_items['news'], key=…, reverse=True)[:10]`
(event_driven_main.py lines 97-99): the news processing order and cap. -/
def recentNewsSelection (news : List Item) : List Item :=
  (stableSortDesc ppGt news).take 10

/-- A news item published 2025-06-01, as built by the RSS parser (no
`published_parsed` key). -/
def olderArticle : Item :=
  [("title", "Old AI story"), ("url", "https://example.com/old"),
   ("description", ""), ("published", "2025-06-01T09:00:00"),
   ("feed_name", "TechCrunch"), ("feed_type", "news")]

/-- A news item published one day later, 2025-06-02. -/
def newerArticle : Item :=
  [("title", "New AI story"), ("url", "https://example.com/new"),
   ("description", ""), ("published", "2025-06-02T09:00:00"),
   ("feed_name", "TechCrunch"), ("feed_type", "news")]

/-- C8 (code evaluated at the failing input): pipeline items have no
`published_parsed` key, so the sort key is the constant default and the
stable descending sort leaves the list unchanged — the older article is
processed before the newer one, contradicting most-recent-first ordering.
The per-kind cap (at most 10 news items before summarization) does hold. -/
theorem event_driven_order_not_recency :
    recentNewsSelection [olderArticle, newerArticle]
      = [olderArticle, newerArticle]
    ∧ publishedParsedKey olderArticle = none
    ∧ publishedParsedKey newerArticle = none
    ∧ olderArticle.lookup "published" = some "2025-06-01T09:00:00"
    ∧ newerArticle.lookup "published" = some "2025-06-02T09:00:00"
    ∧ olderArticle ≠ newerArticle
    ∧ ∀ L : List Item, (recentNewsSelection L).length ≤ 10 := by
  refine ⟨by decide, by decide, by decide, by decide, by decide, by decide, ?_⟩
  intro L
  exact List.length_take_le 10 (stableSortDesc ppGt L)
